import Mathlib

/-!
Verification of the OCVBot behavior and skills modules against their
specification.  The definitions below are a shallow embedding of
`ocvbot/behavior.py` and `ocvbot/skills.py`: wall-clock times are `Nat`
(epoch seconds, as produced by `round(time.time())`), screen and map
coordinates are `Int`, each call to `random.randint` is passed in as an
explicit argument or environment oracle, and side effects (log lines,
mouse clicks, sleeps, `sys.exit`) are recorded as explicit event values.
-/

/-! ## Checkpoint scheduler (`logout_break_range` / `logout_break_roll`)

State read and written by the scheduler: the five checkpoint timestamps
and the four `checkpoint_N_checked` globals from `startup.py` (the fifth
checkpoint has no `checked` flag in the source), plus the session
counters `session_num` / `session_total`. -/

structure SchedState where
  checkpoint_1 : Nat
  checkpoint_2 : Nat
  checkpoint_3 : Nat
  checkpoint_4 : Nat
  checkpoint_5 : Nat
  checkpoint_1_checked : Bool
  checkpoint_2_checked : Bool
  checkpoint_3_checked : Bool
  checkpoint_4_checked : Bool
  session_num : Nat
  session_total : Nat
  deriving DecidableEq

/-- Observable effects of one scheduler call: the `Rolling for
checkpoint N...` log line, the `Logout roll was N` log line, the
`logout()` collaborator call, and the blocking break sleep, plus the
`Checkpoint N is at ...` log line from the no-checkpoint-due branch. -/
inductive SchedEvent
  | rollMsg (checkpoint : Nat)
  | rollResult (chance roll : Nat)
  | logoutAction
  | breakSleep
  | eta (checkpoint : Nat)
  deriving DecidableEq

/-- Result of a scheduler call: either control returns with an updated
state, or the process terminates via `sys.exit`. -/
inductive RollOutcome
  | cont (s : SchedState)
  | exit (code : Nat)
  deriving DecidableEq

/-- Embedding of `logout_break_roll(chance)` (behavior.py lines
330-383).  `roll` is the value drawn by `rand.randint(1, chance)`; the
caller guarantees `1 ≤ roll ≤ chance`.  On a passing roll the code calls
`logout()`, increments `session_num`, and either exits with code 0
(budget reached) or sleeps for the break duration. -/
def logout_break_roll (chance roll : Nat) (s : SchedState) :
    RollOutcome × List SchedEvent :=
  if roll = chance then
    let s' := { s with session_num := s.session_num + 1 }
    if s'.session_total ≤ s'.session_num then
      (RollOutcome.exit 0,
        [SchedEvent.rollResult chance roll, SchedEvent.logoutAction])
    else
      (RollOutcome.cont s',
        [SchedEvent.rollResult chance roll, SchedEvent.logoutAction,
         SchedEvent.breakSleep])
  else
    (RollOutcome.cont s, [SchedEvent.rollResult chance roll])

/-- Embedding of `logout_break_range()` (behavior.py lines 256-327), the
scheduler tick.  `now` is `round(time.time())` and `roll` is the value
the inner `rand.randint` call will return, if a roll happens at all.
Checkpoints 1-4 are tried in order; each marks its flag before rolling
with chance 5.  The checkpoint-5 branch resets the four flags and rolls
with chance 1.  Otherwise one `Checkpoint N is at ...` line is logged. -/
def logout_break_range (now roll : Nat) (s : SchedState) :
    RollOutcome × List SchedEvent :=
  if s.checkpoint_1 ≤ now ∧ s.checkpoint_1_checked = false then
    let r := logout_break_roll 5 roll { s with checkpoint_1_checked := true }
    (r.1, SchedEvent.rollMsg 1 :: r.2)
  else if s.checkpoint_2 ≤ now ∧ s.checkpoint_2_checked = false then
    let r := logout_break_roll 5 roll { s with checkpoint_2_checked := true }
    (r.1, SchedEvent.rollMsg 2 :: r.2)
  else if s.checkpoint_3 ≤ now ∧ s.checkpoint_3_checked = false then
    let r := logout_break_roll 5 roll { s with checkpoint_3_checked := true }
    (r.1, SchedEvent.rollMsg 3 :: r.2)
  else if s.checkpoint_4 ≤ now ∧ s.checkpoint_4_checked = false then
    let r := logout_break_roll 5 roll { s with checkpoint_4_checked := true }
    (r.1, SchedEvent.rollMsg 4 :: r.2)
  else if s.checkpoint_5 ≤ now then
    logout_break_roll 1 roll
      { s with checkpoint_1_checked := false, checkpoint_2_checked := false,
               checkpoint_3_checked := false, checkpoint_4_checked := false }
  else
    let ev :=
      if s.checkpoint_1_checked = false then [SchedEvent.eta 1]
      else if s.checkpoint_1_checked = true ∧ s.checkpoint_2_checked = false then
        [SchedEvent.eta 2]
      else if s.checkpoint_2_checked = true ∧ s.checkpoint_3_checked = false then
        [SchedEvent.eta 3]
      else if s.checkpoint_3_checked = true ∧ s.checkpoint_4_checked = false then
        [SchedEvent.eta 4]
      else if s.checkpoint_4_checked = true then [SchedEvent.eta 5]
      else []
    (RollOutcome.cont s, ev)

/-- Repeated scheduler ticks: each list entry is a `(now, roll)` pair
for one `logout_break_range` call.  A `sys.exit` outcome terminates the
run; remaining entries produce no events, matching process exit. -/
def runTicks (s : SchedState) : List (Nat × Nat) → List SchedEvent × Option Nat
  | [] => ([], none)
  | (now, roll) :: rest =>
    match logout_break_range now roll s with
    | (RollOutcome.exit c, evs) => (evs, some c)
    | (RollOutcome.cont s', evs) =>
      let r := runTicks s' rest
      (evs ++ r.1, r.2)

/-- The `checked` flag of checkpoint `i` (defined for `i` in 1..4; the
fifth checkpoint has no flag in the source). -/
def checkedFlag (s : SchedState) : Nat → Bool
  | 1 => s.checkpoint_1_checked
  | 2 => s.checkpoint_2_checked
  | 3 => s.checkpoint_3_checked
  | 4 => s.checkpoint_4_checked
  | _ => true

/-- `logout_break_roll` never logs a `Rolling for checkpoint N` line;
that line belongs to `logout_break_range`. -/
theorem rollMsg_not_mem_roll (i chance roll : Nat) (s : SchedState) :
    SchedEvent.rollMsg i ∉ (logout_break_roll chance roll s).2 := by
  simp only [logout_break_roll]
  split_ifs <;> simp

/-- `logout_break_roll` never changes any checkpoint `checked` flag. -/
theorem roll_preserves_flags (chance roll : Nat) (s s' : SchedState)
    (h : (logout_break_roll chance roll s).1 = RollOutcome.cont s') :
    s'.checkpoint_1_checked = s.checkpoint_1_checked ∧
    s'.checkpoint_2_checked = s.checkpoint_2_checked ∧
    s'.checkpoint_3_checked = s.checkpoint_3_checked ∧
    s'.checkpoint_4_checked = s.checkpoint_4_checked := by
  simp only [logout_break_roll] at h
  split_ifs at h <;> simp_all
  simp [← h]

set_option maxHeartbeats 1000000 in
/-- A tick never rolls a checkpoint (among 1-4) whose flag is set. -/
theorem not_rollMsg_of_checked (i : Nat) (s : SchedState) (now roll : Nat)
    (h1 : 1 ≤ i) (h4 : i ≤ 4) (hc : checkedFlag s i = true) :
    SchedEvent.rollMsg i ∉ (logout_break_range now roll s).2 := by
  interval_cases i <;>
    (simp only [checkedFlag] at hc
     simp only [logout_break_range]
     split_ifs <;> simp_all [rollMsg_not_mem_roll])

set_option maxHeartbeats 8000000 in
/-- If a tick rolled checkpoint `i` (among 1-4) and control returned,
then the resulting state has checkpoint `i` marked checked. -/
theorem checked_after_rollMsg (i : Nat) (s s' : SchedState) (now roll : Nat)
    (h1 : 1 ≤ i) (h4 : i ≤ 4)
    (hm : SchedEvent.rollMsg i ∈ (logout_break_range now roll s).2)
    (ho : (logout_break_range now roll s).1 = RollOutcome.cont s') :
    checkedFlag s' i = true := by
  interval_cases i <;>
    (simp only [logout_break_range] at hm ho
     split_ifs at hm ho <;>
       (try have hp := roll_preserves_flags _ _ _ _ ho) <;>
       simp_all [rollMsg_not_mem_roll, checkedFlag])

/-! ## Scheduler claims -/

/-- C1.  A successful 1-in-5 roll at checkpoint 1 executes the full
break cycle (`logout()` call followed by the break sleep), yet the
resulting state still has `checkpoint_1_checked = true`: the `checked`
flags are not reset after a successful roll at checkpoints 1-4.  They
are reset only in the checkpoint-5 branch, and there before the break
roll rather than after the break completes (second conjunct). -/
theorem checkpoint_flags_not_reset_after_break :
    logout_break_range 10 5 ⟨10, 20, 30, 40, 50, false, false, false, false, 0, 5⟩ =
      (RollOutcome.cont ⟨10, 20, 30, 40, 50, true, false, false, false, 1, 5⟩,
        [SchedEvent.rollMsg 1, SchedEvent.rollResult 5 5,
         SchedEvent.logoutAction, SchedEvent.breakSleep])
  ∧ logout_break_range 50 1 ⟨10, 20, 30, 40, 50, true, true, true, true, 0, 5⟩ =
      (RollOutcome.cont ⟨10, 20, 30, 40, 50, false, false, false, false, 1, 5⟩,
        [SchedEvent.rollResult 1 1, SchedEvent.logoutAction,
         SchedEvent.breakSleep]) := by
  decide

/-- C3 counterexample.  With checkpoints at 10..50 and all flags
unchecked, a tick at `now = 49 = t5 - 1` does not log checkpoint 1's
scheduled time: checkpoint 1's timestamp (10) has long passed, so the
tick rolls checkpoint 1 (the drawn value 1 fails against chance 5) and
marks it checked, contradicting the claimed no-roll/no-change
behavior. -/
theorem tick_at_t5_minus_one_rolls_checkpoint_one :
    logout_break_range 49 1 ⟨10, 20, 30, 40, 50, false, false, false, false, 0, 5⟩ =
      (RollOutcome.cont ⟨10, 20, 30, 40, 50, true, false, false, false, 0, 5⟩,
        [SchedEvent.rollMsg 1, SchedEvent.rollResult 5 1]) := by
  decide

/-- C3 amended.  If a tick happens strictly before checkpoint 1's
timestamp (hence, with the checkpoints in increasing order, before
every checkpoint) while checkpoint 1 is unchecked, then no roll occurs,
no flag changes, and the scheduler logs checkpoint 1's scheduled
time. -/
theorem tick_before_first_checkpoint_no_roll (s : SchedState) (now roll : Nat)
    (h1 : now < s.checkpoint_1)
    (h12 : s.checkpoint_1 ≤ s.checkpoint_2) (h23 : s.checkpoint_2 ≤ s.checkpoint_3)
    (h34 : s.checkpoint_3 ≤ s.checkpoint_4) (h45 : s.checkpoint_4 ≤ s.checkpoint_5)
    (hc1 : s.checkpoint_1_checked = false) :
    logout_break_range now roll s = (RollOutcome.cont s, [SchedEvent.eta 1]) := by
  have g1 : ¬(s.checkpoint_1 ≤ now ∧ s.checkpoint_1_checked = false) := by
    intro h
    omega
  have g2 : ¬(s.checkpoint_2 ≤ now ∧ s.checkpoint_2_checked = false) := by
    intro h
    omega
  have g3 : ¬(s.checkpoint_3 ≤ now ∧ s.checkpoint_3_checked = false) := by
    intro h
    omega
  have g4 : ¬(s.checkpoint_4 ≤ now ∧ s.checkpoint_4_checked = false) := by
    intro h
    omega
  have g5 : ¬(s.checkpoint_5 ≤ now) := by omega
  simp [logout_break_range, g1, g2, g3, g4, g5, hc1]
  omega

/-- C3 amended, witness: a concrete tick at `now = 5`, before the first
checkpoint at 10, logs checkpoint 1's scheduled time and changes
nothing. -/
theorem tick_before_first_checkpoint_no_roll_witness :
    (5 : Nat) < 10 ∧ (10 : Nat) ≤ 20 ∧ (20 : Nat) ≤ 30 ∧ (30 : Nat) ≤ 40 ∧
    (40 : Nat) ≤ 50 ∧
    logout_break_range 5 3 ⟨10, 20, 30, 40, 50, false, false, false, false, 0, 5⟩ =
      (RollOutcome.cont ⟨10, 20, 30, 40, 50, false, false, false, false, 0, 5⟩,
        [SchedEvent.eta 1]) :=
  ⟨by decide, by decide, by decide, by decide, by decide,
   tick_before_first_checkpoint_no_roll _ 5 3 (by decide) (by decide) (by decide)
     (by decide) (by decide) rfl⟩

/-- C5.  Whenever a tick falls through to the fifth-checkpoint branch
(none of the first four guards applies and checkpoint 5's timestamp has
passed), the roll is drawn from `randint(1, 1)` — so the drawn value is
1 and always equals the chance — and the break (the `logout()` call) is
executed unconditionally. -/
theorem final_checkpoint_forces_break (s : SchedState) (now roll : Nat)
    (h1 : ¬(s.checkpoint_1 ≤ now ∧ s.checkpoint_1_checked = false))
    (h2 : ¬(s.checkpoint_2 ≤ now ∧ s.checkpoint_2_checked = false))
    (h3 : ¬(s.checkpoint_3 ≤ now ∧ s.checkpoint_3_checked = false))
    (h4 : ¬(s.checkpoint_4 ≤ now ∧ s.checkpoint_4_checked = false))
    (h5 : s.checkpoint_5 ≤ now)
    (hlo : 1 ≤ roll) (hhi : roll ≤ 1) :
    SchedEvent.rollResult 1 1 ∈ (logout_break_range now roll s).2 ∧
    SchedEvent.logoutAction ∈ (logout_break_range now roll s).2 := by
  have hr : roll = 1 := le_antisymm hhi hlo
  subst hr
  simp only [logout_break_range, if_neg h1, if_neg h2, if_neg h3, if_neg h4,
    if_pos h5]
  simp only [logout_break_roll]
  split_ifs <;> simp

/-- C5 witness: at `now = 50` with all four flags checked, the forced
fifth-checkpoint roll executes the break. -/
theorem final_checkpoint_forces_break_witness :
    ¬((10 : Nat) ≤ 50 ∧ true = false) ∧ (50 : Nat) ≤ 50 ∧ (1 : Nat) ≤ 1 ∧
    (SchedEvent.rollResult 1 1 ∈
      (logout_break_range 50 1 ⟨10, 20, 30, 40, 50, true, true, true, true, 0, 5⟩).2 ∧
     SchedEvent.logoutAction ∈
      (logout_break_range 50 1 ⟨10, 20, 30, 40, 50, true, true, true, true, 0, 5⟩).2) :=
  ⟨by decide, by decide, by decide,
   final_checkpoint_forces_break ⟨10, 20, 30, 40, 50, true, true, true, true, 0, 5⟩
     50 1 (by decide) (by decide) (by decide) (by decide) (by decide)
     (by decide) (by decide)⟩

/-- C6.  When a break roll passes and the incremented session counter
reaches or exceeds the configured total, `logout_break_roll` terminates
the process with exit code 0 (first conjunct); and once a tick exits,
`runTicks` produces no events from any later tick (second conjunct). -/
theorem session_budget_exit_stops_ticks :
    (∀ chance roll : Nat, ∀ s : SchedState, roll = chance →
        s.session_total ≤ s.session_num + 1 →
        (logout_break_roll chance roll s).1 = RollOutcome.exit 0)
  ∧ (∀ s : SchedState, ∀ now roll : Nat, ∀ rest : List (Nat × Nat),
        ∀ c : Nat, ∀ evs : List SchedEvent,
        logout_break_range now roll s = (RollOutcome.exit c, evs) →
        runTicks s ((now, roll) :: rest) = (evs, some c)) := by
  constructor
  · intro chance roll s h hs
    subst h
    simp [logout_break_roll, hs]
  · intro s now roll rest c evs h
    simp [runTicks, h]

/-- C6 witness: with 4 of 5 sessions complete, a passing roll at
checkpoint 1 exits with code 0, and a subsequent scheduled tick is
never run. -/
theorem session_budget_exit_stops_ticks_witness :
    ((5 : Nat) = 5 ∧
      (logout_break_roll 5 5 ⟨10, 20, 30, 40, 50, false, false, false, false, 4, 5⟩).1 =
        RollOutcome.exit 0)
  ∧ (logout_break_range 10 5 ⟨10, 20, 30, 40, 50, false, false, false, false, 4, 5⟩ =
        (RollOutcome.exit 0,
          [SchedEvent.rollMsg 1, SchedEvent.rollResult 5 5, SchedEvent.logoutAction]) ∧
     runTicks ⟨10, 20, 30, 40, 50, false, false, false, false, 4, 5⟩ [(10, 5), (99, 1)] =
        ([SchedEvent.rollMsg 1, SchedEvent.rollResult 5 5, SchedEvent.logoutAction],
          some 0)) :=
  ⟨⟨rfl, session_budget_exit_stops_ticks.1 5 5 _ rfl (by decide)⟩,
   ⟨by decide, session_budget_exit_stops_ticks.2 _ 10 5 [(99, 1)] 0 _ (by decide)⟩⟩

/-- C7 counterexample.  With checkpoints at 10..50 and checkpoint 1
already checked and eligible (`10 ≤ 20`), a second tick at the same
`now = 20` still performs a roll — it rolls checkpoint 2 — so `tick` is
not roll-free merely because some eligible checkpoint is checked. -/
theorem second_tick_same_now_performs_roll :
    logout_break_range 20 1 ⟨10, 20, 30, 40, 50, false, false, false, false, 0, 5⟩ =
      (RollOutcome.cont ⟨10, 20, 30, 40, 50, true, false, false, false, 0, 5⟩,
        [SchedEvent.rollMsg 1, SchedEvent.rollResult 5 1])
  ∧ (10 : Nat) ≤ 20
  ∧ SchedEvent.rollResult 5 1 ∈
      (logout_break_range 20 1 ⟨10, 20, 30, 40, 50, true, false, false, false, 0, 5⟩).2 := by
  decide

/-- C7 amended.  Idempotence holds per checkpoint: a tick never rolls a
checkpoint (among 1-4) whose `checked` flag is already set, and if a
tick rolled checkpoint `i` and control returned, a second tick at the
same `now` does not roll checkpoint `i` again (it may roll a later
unchecked checkpoint). -/
theorem tick_never_rerolls_checked_checkpoint :
    (∀ i : Nat, ∀ s : SchedState, ∀ now roll : Nat, 1 ≤ i → i ≤ 4 →
        checkedFlag s i = true →
        SchedEvent.rollMsg i ∉ (logout_break_range now roll s).2)
  ∧ (∀ i : Nat, ∀ s s' : SchedState, ∀ now roll roll' : Nat, 1 ≤ i → i ≤ 4 →
        SchedEvent.rollMsg i ∈ (logout_break_range now roll s).2 →
        (logout_break_range now roll s).1 = RollOutcome.cont s' →
        SchedEvent.rollMsg i ∉ (logout_break_range now roll' s').2) :=
  ⟨fun i s now roll hlo hhi hc => not_rollMsg_of_checked i s now roll hlo hhi hc,
   fun i s s' now roll roll' hlo hhi hm ho =>
     not_rollMsg_of_checked i s' now roll' hlo hhi
       (checked_after_rollMsg i s s' now roll hlo hhi hm ho)⟩

/-- C7 amended, witness: after the first tick at `now = 20` rolls
checkpoint 1, a second tick at the same time does not roll checkpoint 1
again. -/
theorem tick_never_rerolls_checked_checkpoint_witness :
    (1 : Nat) ≤ 1 ∧ (1 : Nat) ≤ 4 ∧
    SchedEvent.rollMsg 1 ∈
      (logout_break_range 20 1 ⟨10, 20, 30, 40, 50, false, false, false, false, 0, 5⟩).2 ∧
    SchedEvent.rollMsg 1 ∉
      (logout_break_range 20 1 ⟨10, 20, 30, 40, 50, true, false, false, false, 0, 5⟩).2 :=
  ⟨by decide, by decide, by decide,
   tick_never_rerolls_checked_checkpoint.2 1
     ⟨10, 20, 30, 40, 50, false, false, false, false, 0, 5⟩
     ⟨10, 20, 30, 40, 50, true, false, false, false, 0, 5⟩
     20 1 1 (by decide) (by decide) (by decide) (by decide)⟩

/-! ## Logout (`logout`, behavior.py lines 182-253)

The function first asks the vision collaborator `vis.orient()` whether
the client is already logged out; if so it returns `True` immediately.
Otherwise it opens the logout side stone (which may raise), searches up
to four times for one of three logout-button needles, raises if none is
found, then clicks and re-checks up to five times, raising if the
logout is never detected.  All collaborator answers are provided by an
environment record. -/

/-- First component of the `vis.orient()` result, as compared against
the string literal in the source. -/
inductive OrientState
  | logged_out
  | logged_in
  deriving DecidableEq

/-- Return value of the embedded Python function: a normal `True` or
`False` return, or a raised exception. -/
inductive PyOutcome
  | ok (val : Bool)
  | exc
  deriving DecidableEq

/-- Input-dispatching and state-changing actions `logout` can take;
vision searches are included so the idempotence claim's `no action`
reading is checkable, indexed by the loop iteration that issued them. -/
inductive LogoutAction
  | openSideStoneCall
  | searchStdButton (iter : Nat)
  | searchHighlightedButton (iter : Nat)
  | searchWorldSwitcherButton (iter : Nat)
  | clickLogoutButton
  | searchLoggedOut (tries : Nat)
  deriving DecidableEq

/-- Collaborator answers for one `logout()` call: the orient result,
whether `open_side_stone('logout')` succeeds (it raises on failure),
which button needles match on each search iteration, and whether the
logged-out screen is detected after each click. -/
structure LogoutEnv where
  orient : OrientState
  side_stone_opens : Bool
  std_button : Nat → Bool
  highlighted_button : Nat → Bool
  world_switcher_button : Nat → Bool
  logged_out_check : Nat → Bool

/-- The `for _ in range(1, 5)` search over the three logout-button
needles (behavior.py lines 208-231): each iteration tries the standard,
highlighted, and world-switcher variants in order, breaking on the
first hit. -/
def logout_find_button (env : LogoutEnv) : List Nat → Bool × List LogoutAction
  | [] => (false, [])
  | i :: rest =>
    if env.std_button i then (true, [LogoutAction.searchStdButton i])
    else if env.highlighted_button i then
      (true, [LogoutAction.searchStdButton i, LogoutAction.searchHighlightedButton i])
    else if env.world_switcher_button i then
      (true, [LogoutAction.searchStdButton i, LogoutAction.searchHighlightedButton i,
              LogoutAction.searchWorldSwitcherButton i])
    else
      let r := logout_find_button env rest
      (r.1, LogoutAction.searchStdButton i :: LogoutAction.searchHighlightedButton i ::
            LogoutAction.searchWorldSwitcherButton i :: r.2)

/-- The `for tries in range(5)` click-and-verify loop (behavior.py
lines 242-253): wait for the logged-out screen, return `True` on
detection, otherwise click the button again; raise after five
failures. -/
def logout_click_loop (env : LogoutEnv) : List Nat → PyOutcome × List LogoutAction
  | [] => (PyOutcome.exc, [])
  | t :: rest =>
    if env.logged_out_check t then (PyOutcome.ok true, [LogoutAction.searchLoggedOut t])
    else
      let r := logout_click_loop env rest
      (r.1, LogoutAction.searchLoggedOut t :: LogoutAction.clickLogoutButton :: r.2)

/-- Embedding of `logout()` (behavior.py lines 182-253). -/
def logout (env : LogoutEnv) : PyOutcome × List LogoutAction :=
  if env.orient = OrientState.logged_out then (PyOutcome.ok true, [])
  else if env.side_stone_opens = false then
    (PyOutcome.exc, [LogoutAction.openSideStoneCall])
  else
    let found := logout_find_button env [1, 2, 3, 4]
    if found.1 = false then (PyOutcome.exc, LogoutAction.openSideStoneCall :: found.2)
    else
      let clicks := logout_click_loop env [0, 1, 2, 3, 4]
      (clicks.1, LogoutAction.openSideStoneCall :: found.2 ++
                 LogoutAction.clickLogoutButton :: clicks.2)

/-- C8.  `logout()` is idempotent: when the orient check reports the
client already logged out, it returns `True` and takes no action at
all — no side-stone open, no needle search, no click. -/
theorem logout_idempotent_when_logged_out (env : LogoutEnv)
    (h : env.orient = OrientState.logged_out) :
    logout env = (PyOutcome.ok true, []) := by
  simp [logout, h]

/-- C8 witness: a concrete already-logged-out environment. -/
theorem logout_idempotent_when_logged_out_witness :
    (⟨OrientState.logged_out, true, fun _ => false, fun _ => false, fun _ => false,
        fun _ => false⟩ : LogoutEnv).orient = OrientState.logged_out ∧
    logout ⟨OrientState.logged_out, true, fun _ => false, fun _ => false,
        fun _ => false, fun _ => false⟩ = (PyOutcome.ok true, []) :=
  ⟨rfl, logout_idempotent_when_logged_out _ rfl⟩

/-! ## Navigation (`travel` / `ocv_find_location`, behavior.py lines 719-895)

`travel` iterates over waypoints; for each waypoint it runs
`for attempt in range(1, attempts)`, localizing the minimap within the
haystack map via `ocv_find_location`, computing the distance to the
waypoint, and clicking a clamped minimap position until the player is
within tolerance.  The localization result and the two `rand.randint`
jitter draws per iteration are environment oracles. -/

/-- Match rectangle returned by `ocv_find_location`: `(left, top,
width, height)` of the minimap needle inside the haystack map. -/
structure Rect where
  left : Nat
  top : Nat
  width : Nat
  height : Nat
  deriving DecidableEq

/-- Environment for one `travel` call: the client window origin
(`vision.client[0]`, `vision.client[1]`) and, per waypoint index and
attempt number, the `ocv_find_location` result and the two
`rand.randint(-coord_tolerance, coord_tolerance)` draws. -/
structure TravelEnv where
  client_left : Nat
  client_top : Nat
  ocv_find_location : Nat → Nat → Rect
  coord_rand_x : Nat → Nat → Int
  coord_rand_y : Nat → Nat → Int

/-- One waypoint tuple from `travel`'s `param_list`: target
coordinates, the click-jitter bound, and the arrival tolerance (the
sleep range has no effect on the computation and is omitted). -/
structure WaypointParams where
  waypoint : Int × Int
  coord_tolerance : Int
  waypoint_tolerance : Int × Int

/-- Observable navigation effects: one minimap localization per loop
iteration and the dispatched minimap clicks. -/
inductive TravelEvent
  | locateCall (wpIdx attempt : Nat)
  | click (wpIdx : Nat) (x y : Int)
  deriving DecidableEq

/-- The X-axis click-position computation (behavior.py lines 818-838):
clamp an X-distance of magnitude at least 50 to the minimap radius and
extend by 13 when the Y-distance is small; note the positive branch
tests `waypoint_distance_y <= 10` while the negative branch tests
`abs(waypoint_distance_y) <= 10`, exactly as in the source. -/
def click_pos_x (coords_client_x waypoint_distance_x waypoint_distance_y coord_rand : Int) :
    Int :=
  if 50 ≤ waypoint_distance_x then
    if waypoint_distance_y ≤ 10 then coords_client_x + 50 + coord_rand + 13
    else coords_client_x + 50 + coord_rand
  else if 50 ≤ |waypoint_distance_x| then
    if |waypoint_distance_y| ≤ 10 then coords_client_x - 50 + coord_rand - 13
    else coords_client_x - 50 + coord_rand
  else coords_client_x + waypoint_distance_x + coord_rand

/-- The Y-axis click-position computation (behavior.py lines 841-851),
symmetric to `click_pos_x` with the axes swapped. -/
def click_pos_y (coords_client_y waypoint_distance_y waypoint_distance_x coord_rand : Int) :
    Int :=
  if 50 ≤ waypoint_distance_y then
    if waypoint_distance_x ≤ 10 then coords_client_y + 50 + coord_rand + 13
    else coords_client_y + 50 + coord_rand
  else if 50 ≤ |waypoint_distance_y| then
    if |waypoint_distance_x| ≤ 10 then coords_client_y - 50 + coord_rand - 13
    else coords_client_y - 50 + coord_rand
  else coords_client_y + waypoint_distance_y + coord_rand

/-- Python's `range(1, attempts)`: the attempt numbers `1` to
`attempts - 1`. -/
def attemptRange (attempts : Nat) : List Nat := List.range' 1 (attempts - 1)

/-- The per-waypoint `for attempt in range(1, attempts)` loop
(behavior.py lines 786-866).  The Bool result is `true` iff the loop
executed the early `return False` (the `if attempt > attempts` guard).
Each iteration localizes the minimap, computes the waypoint distance,
breaks if within tolerance, and otherwise dispatches a click at the
clamped position (the second, post-sleep arrival check re-uses the same
distances, as in the source). -/
def travel_wp (env : TravelEnv) (wpIdx : Nat) (p : WaypointParams) (attempts : Nat) :
    List Nat → Bool × List TravelEvent
  | [] => (false, [])
  | attempt :: rest =>
    if attempts < attempt then (true, [])
    else
      let r := env.ocv_find_location wpIdx attempt
      let coords_map_x : Int := (r.left + r.width / 2 : Nat)
      let coords_map_y : Int := (r.top + r.height / 2 : Nat)
      let coords_client_x : Int := (env.client_left + 642 : Nat)
      let coords_client_y : Int := (env.client_top + 85 : Nat)
      let waypoint_distance_x := p.waypoint.1 - coords_map_x
      let waypoint_distance_y := p.waypoint.2 - coords_map_y
      if |waypoint_distance_x| ≤ p.waypoint_tolerance.1 ∧
         |waypoint_distance_y| ≤ p.waypoint_tolerance.2 then
        (false, [TravelEvent.locateCall wpIdx attempt])
      else
        let cx := click_pos_x coords_client_x waypoint_distance_x waypoint_distance_y
          (env.coord_rand_x wpIdx attempt)
        let cy := click_pos_y coords_client_y waypoint_distance_y waypoint_distance_x
          (env.coord_rand_y wpIdx attempt)
        let evs := [TravelEvent.locateCall wpIdx attempt,
                    TravelEvent.click wpIdx |cx| |cy|]
        if |waypoint_distance_x| ≤ p.waypoint_tolerance.1 ∧
           |waypoint_distance_y| ≤ p.waypoint_tolerance.2 then
          (false, evs)
        else
          let t := travel_wp env wpIdx p attempts rest
          (t.1, evs ++ t.2)

/-- The waypoint loop of `travel` (behavior.py lines 781-869): an early
`return False` from a waypoint loop ends the whole call with `False`;
falling off the end returns `True` (the `logout()` call and the
exception at lines 867-868 are commented out in the source). -/
def travel_go (env : TravelEnv) (attempts : Nat) :
    Nat → List WaypointParams → Bool × List TravelEvent
  | _, [] => (true, [])
  | i, p :: rest =>
    let r := travel_wp env i p attempts (attemptRange attempts)
    if r.1 then (false, r.2)
    else
      let t := travel_go env attempts (i + 1) rest
      (t.1, r.2 ++ t.2)

/-- Embedding of `travel(param_list, haystack_map, attempts=100)`
(behavior.py lines 719-869). -/
def travel (env : TravelEnv) (param_list : List WaypointParams) (attempts : Nat) :
    Bool × List TravelEvent :=
  travel_go env attempts 0 param_list

/-- Recognizer for dispatched clicks among navigation events. -/
def isClick : TravelEvent → Bool
  | TravelEvent.click _ _ _ => true
  | _ => false

/-- Number of minimap clicks dispatched in an event list. -/
def clickCount (evs : List TravelEvent) : Nat := evs.countP isClick

/-- Each iteration of the per-waypoint loop dispatches at most one
click. -/
theorem clickCount_travel_wp_le (env : TravelEnv) (wpIdx : Nat) (p : WaypointParams)
    (attempts : Nat) : ∀ l : List Nat,
    clickCount (travel_wp env wpIdx p attempts l).2 ≤ l.length := by
  intro l
  induction l with
  | nil => simp [travel_wp, clickCount]
  | cons a rest ih =>
    simp only [travel_wp]
    split_ifs <;>
      simp_all [clickCount, isClick, List.countP_cons, List.countP_append]

/-- With `attempts = 1`, Python's `range(1, 1)` is empty, so the loop
body for a waypoint never runs. -/
theorem travel_go_attempts_one (env : TravelEnv) :
    ∀ (param_list : List WaypointParams) (i : Nat),
    travel_go env 1 i param_list = (true, []) := by
  intro param_list
  induction param_list with
  | nil =>
    intro i
    simp [travel_go]
  | cons p rest ih =>
    intro i
    simp [travel_go, attemptRange, travel_wp, ih]

/-- C9.  The per-waypoint loop is `for attempt in range(1, attempts)`,
so at most `attempts - 1` clicks are dispatched per waypoint (first
conjunct); and with `attempts = 1` the body never executes — `travel`
performs no localization and no click for any waypoint and still
returns `True` (second conjunct). -/
theorem travel_attempt_budget :
    (∀ (env : TravelEnv) (wpIdx : Nat) (p : WaypointParams) (attempts : Nat),
        clickCount (travel_wp env wpIdx p attempts (attemptRange attempts)).2 ≤
          attempts - 1)
  ∧ (∀ (env : TravelEnv) (param_list : List WaypointParams),
        travel env param_list 1 = (true, [])) := by
  constructor
  · intro env wpIdx p attempts
    have h := clickCount_travel_wp_le env wpIdx p attempts (attemptRange attempts)
    simpa [attemptRange] using h
  · intro env param_list
    exact travel_go_attempts_one env param_list 0

/-- C2.  A concrete run in which the agent never moves: localization
always reports the same position (center `(5, 5)`), the single
waypoint `(1000, 1000)` with tolerance `(4, 4)` is never reached, and
the per-waypoint budget of `attempts = 3` is exhausted after its two
iterations (both clicks dispatched).  The `if attempt > attempts:
return False` guard is dead — `attempt` never exceeds `attempts` inside
`range(1, attempts)` — and the terminal failure raise is commented out,
so `travel` returns `True` instead of the specified `False`. -/
theorem travel_true_after_budget_exhausted :
    (travel ⟨0, 0, fun _ _ => ⟨0, 0, 10, 10⟩, fun _ _ => 0, fun _ _ => 0⟩
        [⟨(1000, 1000), 1, (4, 4)⟩] 3).1 = true
  ∧ clickCount (travel ⟨0, 0, fun _ _ => ⟨0, 0, 10, 10⟩, fun _ _ => 0, fun _ _ => 0⟩
        [⟨(1000, 1000), 1, (4, 4)⟩] 3).2 = 2 := by
  decide

/-- C4 counterexample.  With a raw X-delta of 100 (magnitude at least
50), a small Y-delta, and zero jitter, the computed X click offset is
63, not the claimed exact radius bound of 50, and it exceeds that
bound: the circular-minimap edge boost adds 13 on top of the clamp. -/
theorem click_offset_edge_boost_exceeds_radius :
    click_pos_x 642 100 0 0 - 642 = 63 ∧
    ¬(click_pos_x 642 100 0 0 - 642 ≤ 50) := by
  norm_num [click_pos_x]

/-- C4 amended.  For a raw axis delta of magnitude at least 50, the
computed click offset on that axis is the jitter plus a clamped
constant: plus or minus 50 when no edge boost applies, and plus or
minus 63 when it does; the boost applies on the positive branch when
the orthogonal delta is at most 10 (with no absolute value, as in the
source) and on the negative branch when its magnitude is at most 10.
The same characterization holds for the Y-axis computation. -/
theorem click_offset_clamped_characterization (c dx dy r : Int) (h : 50 ≤ |dx|) :
    click_pos_x c dx dy r - c =
      r + (if 50 ≤ dx then (if dy ≤ 10 then 63 else 50)
           else (if |dy| ≤ 10 then -63 else -50))
  ∧ click_pos_y c dx dy r - c =
      r + (if 50 ≤ dx then (if dy ≤ 10 then 63 else 50)
           else (if |dy| ≤ 10 then -63 else -50)) := by
  unfold click_pos_x click_pos_y
  rcases abs_cases dx with ⟨h1, h2⟩ | ⟨h1, h2⟩ <;>
    rcases abs_cases dy with ⟨h3, h4⟩ | ⟨h3, h4⟩ <;>
    rw [h1] at h <;> rw [h1, h3] <;> split_ifs <;> omega

/-- C4 amended, witness: delta 100 with orthogonal delta 0 and jitter 5
lands exactly on the boosted clamp 63 plus jitter. -/
theorem click_offset_clamped_characterization_witness :
    (50 : Int) ≤ |(100 : Int)| ∧
    click_pos_x 642 100 0 5 - 642 =
      5 + (if (50 : Int) ≤ 100 then (if (0 : Int) ≤ 10 then 63 else 50)
           else (if |(0 : Int)| ≤ 10 then -63 else -50)) :=
  ⟨by norm_num, (click_offset_clamped_characterization 642 100 0 5 (by norm_num)).1⟩

/-! ## Mining (`Mining.mine_rocks`, skills.py lines 284-358)

The method loops `for tries in range(100)` over `for rock_needle in
self.rocks`.  When a full rock is clicked but mining does not start and
the inventory-full chat message is found, it returns the *string*
`'inventory-full'`; falling off the outer loop returns `True`.  The
vision results are environment oracles indexed by `(tries, rock)`. -/

/-- Collaborator answers for `mine_rocks`: whether the full-rock
needle click succeeded, whether the mining-started chat message was
seen, whether the inventory-full chat message was seen, and whether the
rock emptied, per `(tries, rock index)`. -/
structure MiningEnv where
  rock_full : Nat → Nat → Bool
  mining_started : Nat → Nat → Bool
  inv_full : Nat → Nat → Bool
  rock_empty : Nat → Nat → Bool

/-- A Python return value of `mine_rocks`: either a boolean or a
string. -/
inductive PyVal
  | pybool (b : Bool)
  | pystr (s : String)
  deriving DecidableEq

/-- The string literal returned by `mine_rocks` when the inventory is
full (skills.py line 342). -/
def inventory_full_msg : String := (r"inventory-full")

/-- Observable mining actions: the click on a full rock and the
human-behavior roll made after a rock empties. -/
inductive MineEvent
  | clickRock (tries rock : Nat)
  | humanBehaviorRoll (tries rock : Nat)
  deriving DecidableEq

/-- The inner `for rock_needle in self.rocks` loop (skills.py lines
305-357).  The first component is `some v` when the loop returned `v`
early (only the inventory-full path returns from inside), otherwise
`none`.  When mining fails to start only the inventory-full check can
return; in every other case control reaches the rock-empty wait and
continues with the next rock. -/
def mine_rocks_inner (env : MiningEnv) (tries : Nat) :
    List Nat → Option PyVal × List MineEvent
  | [] => (none, [])
  | rock :: rest =>
    if env.rock_full tries rock then
      if env.mining_started tries rock = false ∧ env.inv_full tries rock then
        (some (PyVal.pystr inventory_full_msg), [MineEvent.clickRock tries rock])
      else
        let t := mine_rocks_inner env tries rest
        if env.rock_empty tries rock then
          (t.1, MineEvent.clickRock tries rock ::
                MineEvent.humanBehaviorRoll tries rock :: t.2)
        else
          (t.1, MineEvent.clickRock tries rock :: t.2)
    else
      mine_rocks_inner env tries rest

/-- The outer `for tries in range(100)` loop: propagate an early
return, otherwise fall through to `return True` (skills.py line 358). -/
def mine_rocks_outer (env : MiningEnv) (numRocks : Nat) :
    List Nat → PyVal × List MineEvent
  | [] => (PyVal.pybool true, [])
  | t :: rest =>
    let r := mine_rocks_inner env t (List.range numRocks)
    match r.1 with
    | some v => (v, r.2)
    | none =>
      let tail := mine_rocks_outer env numRocks rest
      (tail.1, r.2 ++ tail.2)

/-- Embedding of `Mining.mine_rocks` (skills.py lines 284-358) for a
rock list of length `numRocks`. -/
def mine_rocks (env : MiningEnv) (numRocks : Nat) : PyVal × List MineEvent :=
  mine_rocks_outer env numRocks (List.range 100)

/-- The inner rock loop either falls through or returns the
inventory-full string; no other early return exists. -/
theorem mine_rocks_inner_result (env : MiningEnv) (tries : Nat) :
    ∀ rocks : List Nat,
    (mine_rocks_inner env tries rocks).1 = none ∨
    (mine_rocks_inner env tries rocks).1 = some (PyVal.pystr inventory_full_msg) := by
  intro rocks
  induction rocks with
  | nil => simp [mine_rocks_inner]
  | cons rock rest ih =>
    simp only [mine_rocks_inner]
    split_ifs <;> simp_all

/-- The outer loop returns either `True` or the inventory-full
string. -/
theorem mine_rocks_outer_result (env : MiningEnv) (numRocks : Nat) :
    ∀ l : List Nat,
    (mine_rocks_outer env numRocks l).1 = PyVal.pybool true ∨
    (mine_rocks_outer env numRocks l).1 = PyVal.pystr inventory_full_msg := by
  intro l
  induction l with
  | nil => simp [mine_rocks_outer]
  | cons t rest ih =>
    rcases mine_rocks_inner_result env t (List.range numRocks) with h | h
    · simp only [mine_rocks_outer, h]
      exact ih
    · simp [mine_rocks_outer, h]

/-- C10.  `mine_rocks` does not always return a boolean: every run
returns either the string `'inventory-full'` or the boolean `True`
(never `False`); a concrete environment in which the first rock is
clicked, mining never starts, and the inventory-full message is seen
returns the string; and any early return out of the rock loop is the
string, so `True` arises only by falling through the 100-try loop. -/
theorem mine_rocks_not_always_boolean :
    (∀ (env : MiningEnv) (numRocks : Nat),
        (mine_rocks env numRocks).1 = PyVal.pystr inventory_full_msg ∨
        (mine_rocks env numRocks).1 = PyVal.pybool true)
  ∧ (mine_rocks ⟨fun _ _ => true, fun _ _ => false, fun _ _ => true,
        fun _ _ => false⟩ 1).1 = PyVal.pystr inventory_full_msg
  ∧ (∀ (env : MiningEnv) (tries : Nat) (rocks : List Nat) (v : PyVal)
        (evs : List MineEvent),
        mine_rocks_inner env tries rocks = (some v, evs) →
        v = PyVal.pystr inventory_full_msg) := by
  refine ⟨?_, ?_, ?_⟩
  · intro env numRocks
    exact Or.symm (mine_rocks_outer_result env numRocks (List.range 100))
  · rfl
  · intro env tries rocks v evs h
    have hr := mine_rocks_inner_result env tries rocks
    rw [h] at hr
    rcases hr with h' | h' <;> simp_all

/-- C10 witness: a one-rock, inventory-full environment instantiating
the early-return characterization. -/
theorem mine_rocks_not_always_boolean_witness :
    mine_rocks_inner ⟨fun _ _ => true, fun _ _ => false, fun _ _ => true,
        fun _ _ => false⟩ 0 [0] =
      (some (PyVal.pystr inventory_full_msg), [MineEvent.clickRock 0 0]) ∧
    PyVal.pystr inventory_full_msg = PyVal.pystr inventory_full_msg :=
  ⟨rfl, mine_rocks_not_always_boolean.2.2
     ⟨fun _ _ => true, fun _ _ => false, fun _ _ => true, fun _ _ => false⟩
     0 [0] (PyVal.pystr inventory_full_msg) [MineEvent.clickRock 0 0] rfl⟩
